import Mathlib

/-!
Shallow embedding of `src/speech_to_phrase/transcribe.py` (the transcription
dispatcher of speech-to-phrase-SK) and proofs of its dispatch, error-handling
and streaming contracts.

The dispatcher `transcribe` (transcribe.py lines 18-28) routes a call to one of
two backend functions according to `model.type`, and raises a
`TranscribingError` for any other type.  The backends themselves
(`transcribe_kaldi`, `transcribe_coqui_stt`) are external collaborators and are
modelled as abstract functions; Python exceptions are modelled with `Except`,
and the single-use asynchronous audio stream is modelled by explicit state
passing: a call maps the incoming stream (a list of byte chunks) to a result
together with the stream state left behind by the call.
-/

namespace SpeechToPhrase

/-- Modelled from the spec: `models.py` (defining `ModelType`) is not under
`src/`.  Per the spec (§3) the type tag is "one of a closed set of backend
kinds", "extensible", with at minimum the two kinds the dispatcher routes on;
the `other` constructor carries the type string of any further kind. -/
inductive ModelType : Type where
  | kaldi : ModelType
  | coquiStt : ModelType
  | other (name : String) : ModelType
deriving DecidableEq, Repr

/-- String rendering of a model type, as interpolated into the dispatcher's
error message at transcribe.py line 28 (the spec calls it "the offending type
string"). -/
def ModelType.toStr : ModelType → String
  | ModelType.kaldi => "kaldi"
  | ModelType.coquiStt => "coqui-stt"
  | ModelType.other name => name

/-- Modelled from the spec: `models.py` (defining `Model`) is not under `src/`.
A Model Descriptor carries a unique string `id` and a `type`; its
backend-specific artifact paths are opaque to the dispatcher (§3) and are
omitted, since no code under `src/` reads them. -/
structure Model : Type where
  id : String
  type : ModelType
deriving DecidableEq, Repr

/-- The Settings bundle, with exactly the fields `main` constructs at
transcribe.py lines 60-68.  Filesystem paths are modelled as strings. -/
structure Settings : Type where
  models_dir : String
  train_dir : String
  tools_dir : String
  custom_sentences_dirs : List String
  hass_token : String
  hass_websocket_uri : String
  retrain_on_connect : Bool
deriving DecidableEq, Repr

/-- Modelled from the spec: `const.py` (defining `TranscribingError`) and the
backend modules are not under `src/`.  Following the error taxonomy of spec §7:
`transcribingError` realizes the dispatcher's `UnsupportedModelTypeError`
(the `TranscribingError` raised at transcribe.py line 28, carrying its message
string); `assertionError` realizes `ModelNotFoundError` (the failed `assert`
at transcribe.py line 58); `backendError` is the opaque, backend-defined
`BackendTranscriptionError`, with payload from an abstract type `ε`. -/
inductive PyError (ε : Type) : Type where
  | transcribingError (msg : String) : PyError ε
  | assertionError (msg : String) : PyError ε
  | backendError (e : ε) : PyError ε

/-- One chunk of raw audio bytes (byte values as naturals). -/
abbrev Chunk : Type := List Nat

/-- The audio stream state: the ordered sequence of chunks not yet consumed. -/
abbrev Audio : Type := List Chunk

/-- A backend adapter: consumes the model, settings and stream and produces
either a text result or an error, together with the stream state it leaves
behind (spec §4.3; the backend functions themselves are external
collaborators). -/
abbrev Backend (ε : Type) : Type :=
  Model → Settings → Audio → Except (PyError ε) String × Audio

/-- Embedding of `transcribe` (transcribe.py lines 18-28): if `model.type` is
KALDI return `transcribe_kaldi(model, settings, audio_stream)`; if it is
COQUI_STT return `transcribe_coqui_stt(model, settings, audio_stream)`;
otherwise raise `TranscribingError(f"Unexpected model type for {model.id}:
{model.type}")`.  The two backend functions are parameters (they live outside
`src/`); on the raise path the stream state is returned untouched, since that
path never mentions `audio_stream`. -/
def transcribe {ε : Type} (transcribe_kaldi transcribe_coqui_stt : Backend ε)
    (model : Model) (settings : Settings) (audio_stream : Audio) :
    Except (PyError ε) String × Audio :=
  if model.type = ModelType.kaldi then
    transcribe_kaldi model settings audio_stream
  else if model.type = ModelType.coquiStt then
    transcribe_coqui_stt model settings audio_stream
  else
    (Except.error (PyError.transcribingError
      ("Unexpected model type for " ++ model.id ++ ": " ++ model.type.toStr)),
      audio_stream)

/-- Embedding of the registry lookup at transcribe.py line 57:
`next(iter(m for m in MODELS.values() if m.id == args.model), None)`, i.e. the
first registered model whose `id` equals the requested one, if any. -/
def lookupModel (models : List Model) (modelId : String) : Option Model :=
  models.find? (fun m => m.id == modelId)

/-- Embedding of transcribe.py lines 57-58: resolve the requested model id
against the registry; on failure the `assert` raises
`AssertionError(f"Unknown model id: {args.model}")`. -/
def resolveModel (ε : Type) (models : List Model) (modelId : String) :
    Except (PyError ε) Model :=
  match lookupModel models modelId with
  | some m => Except.ok m
  | none => Except.error (PyError.assertionError ("Unknown model id: " ++ modelId))

/-- Embedding of the `audio_stream` generator (transcribe.py lines 73-79) over
a WAV file holding the given finite list of frames (each frame opaque, of type
`α`; a chunk of bytes is non-empty exactly when it holds at least one frame,
since a WAV frame is at least one byte wide).  Each loop iteration reads
`chunk = f.readframes(chunk_size)` — the next at-most-`chunkSize` frames —
breaks when the chunk is empty, and otherwise yields the chunk: with frames
remaining and `chunkSize > 0` the chunk read is
`f :: rest.take (chunkSize - 1)` and the frames left are
`rest.drop (chunkSize - 1)`; with no frames remaining (or `chunkSize = 0`) the
chunk read is empty and the generator stops. -/
def audioStream {α : Type} (chunkSize : Nat) : List α → List (List α)
  | [] => []
  | f :: rest =>
    if chunkSize = 0 then []
    else (f :: rest.take (chunkSize - 1)) ::
      audioStream chunkSize (rest.drop (chunkSize - 1))
termination_by fs => fs.length
decreasing_by simp [List.length_drop]; omega

/-- The dispatcher's error message for an unsupported model type
(transcribe.py line 28). -/
def unsupportedMsg (model : Model) : String :=
  "Unexpected model type for " ++ model.id ++ ": " ++ model.type.toStr

/-- C1: for every call `transcribe(model, settings, audio_stream)`, if
`model.type` is KALDI the result equals
`transcribe_kaldi(model, settings, audio_stream)`, and if it is COQUI_STT the
result equals `transcribe_coqui_stt(model, settings, audio_stream)`: the
backend is selected purely by `model.type` and its result is returned to the
caller unmodified, with no retry, buffering, or transformation. -/
theorem transcribe_dispatches_by_type {ε : Type}
    (tk tc : Backend ε) (m : Model) (s : Settings) (a : Audio) :
    (m.type = ModelType.kaldi → transcribe tk tc m s a = tk m s a) ∧
    (m.type = ModelType.coquiStt → transcribe tk tc m s a = tc m s a) := by
  constructor
  · intro h; simp [transcribe, h]
  · intro h; simp [transcribe, h]

/-- Witness for C1 at concrete inputs: a KALDI model is routed to the kaldi
backend and a COQUI_STT model to the coqui backend. -/
theorem transcribe_dispatches_by_type_witness :
    transcribe ((fun _ _ a => (Except.ok "k", a)) : Backend Unit)
        (fun _ _ a => (Except.ok "c", a))
        (Model.mk "en_US-kaldi" ModelType.kaldi) (Settings.mk "m" "t" "o" [] "" "" false)
        [[1, 2]]
      = (Except.ok "k", [[1, 2]]) ∧
    transcribe ((fun _ _ a => (Except.ok "k", a)) : Backend Unit)
        (fun _ _ a => (Except.ok "c", a))
        (Model.mk "sk_SK-coqui" ModelType.coquiStt) (Settings.mk "m" "t" "o" [] "" "" false)
        [[1, 2]]
      = (Except.ok "c", [[1, 2]]) := by
  constructor
  · exact (transcribe_dispatches_by_type _ _ _ _ _).1 rfl
  · exact (transcribe_dispatches_by_type _ _ _ _ _).2 rfl

/-- C2: for every model whose type is neither KALDI nor COQUI_STT, `transcribe`
fails with the dispatcher's typed `TranscribingError` (the spec's
`UnsupportedModelTypeError`) — never an ok (empty or placeholder) text result —
whose message carries both the model's id and the model's type string, and
which is distinct from `ModelNotFoundError` (the `AssertionError` of the
lookup) and from any opaque backend-raised error. -/
theorem transcribe_unsupported_type_error {ε : Type}
    (tk tc : Backend ε) (m : Model) (s : Settings) (a : Audio)
    (hk : m.type ≠ ModelType.kaldi) (hc : m.type ≠ ModelType.coquiStt) :
    transcribe tk tc m s a
      = (Except.error (PyError.transcribingError (unsupportedMsg m)), a) ∧
    (∃ pre post, unsupportedMsg m = pre ++ m.id ++ post) ∧
    (∃ pre post, unsupportedMsg m = pre ++ m.type.toStr ++ post) ∧
    (∀ msg : String,
      (PyError.transcribingError (unsupportedMsg m) : PyError ε)
        ≠ PyError.assertionError msg) ∧
    (∀ e : ε,
      (PyError.transcribingError (unsupportedMsg m) : PyError ε)
        ≠ PyError.backendError e) := by
  refine ⟨?_, ?_, ?_, ?_, ?_⟩
  · simp [transcribe, hk, hc, unsupportedMsg]
  · refine ⟨"Unexpected model type for ", ": " ++ m.type.toStr, ?_⟩
    simp [unsupportedMsg, String.append_assoc]
  · refine ⟨"Unexpected model type for " ++ m.id ++ ": ", "", ?_⟩
    simp [unsupportedMsg, String.append_empty, String.append_assoc]
  · intro msg h; cases h
  · intro e h; cases h

/-- Witness for C2: a model of an unregistered type yields the dispatcher
error, with the expected message. -/
theorem transcribe_unsupported_type_error_witness :
    transcribe ((fun _ _ a => (Except.ok "k", a)) : Backend Unit)
        (fun _ _ a => (Except.ok "c", a))
        (Model.mk "xx_XX-new" (ModelType.other "neural"))
        (Settings.mk "m" "t" "o" [] "" "" false) [[1, 2]]
      = (Except.error (PyError.transcribingError
          "Unexpected model type for xx_XX-new: neural"), [[1, 2]]) :=
  (transcribe_unsupported_type_error _ _ _ _ _
    (by decide) (by decide)).1

/-- C3: at most one backend is ever invoked per call.  Formally: whenever
`model.type` does not select a backend, that backend's behavior is irrelevant
to the call — replacing it by any other function leaves the result unchanged —
so a non-selected backend is never called, neither as a fallback when no
backend is registered for the type nor after the selected backend ran. -/
theorem transcribe_at_most_one_backend {ε : Type}
    (tk tk' tc tc' : Backend ε) (m : Model) (s : Settings) (a : Audio) :
    (m.type ≠ ModelType.kaldi →
      transcribe tk tc m s a = transcribe tk' tc m s a) ∧
    (m.type ≠ ModelType.coquiStt →
      transcribe tk tc m s a = transcribe tk tc' m s a) := by
  constructor
  · intro h; simp [transcribe, h]
  · intro h
    by_cases hk : m.type = ModelType.kaldi
    · simp [transcribe, hk]
    · simp [transcribe, hk, h]

/-- Witness for C3: for a model of an unregistered type, swapping either
backend for a differently-behaving one leaves the call's result unchanged. -/
theorem transcribe_at_most_one_backend_witness :
    (transcribe ((fun _ _ a => (Except.ok "k", a)) : Backend Unit)
        (fun _ _ a => (Except.ok "c", a))
        (Model.mk "xx_XX-new" (ModelType.other "neural"))
        (Settings.mk "m" "t" "o" [] "" "" false) [[1, 2]]
      = transcribe (fun _ _ _ => (Except.ok "other-k", []))
        (fun _ _ a => (Except.ok "c", a))
        (Model.mk "xx_XX-new" (ModelType.other "neural"))
        (Settings.mk "m" "t" "o" [] "" "" false) [[1, 2]]) ∧
    (transcribe ((fun _ _ a => (Except.ok "k", a)) : Backend Unit)
        (fun _ _ a => (Except.ok "c", a))
        (Model.mk "xx_XX-new" (ModelType.other "neural"))
        (Settings.mk "m" "t" "o" [] "" "" false) [[1, 2]]
      = transcribe (fun _ _ a => (Except.ok "k", a))
        (fun _ _ _ => (Except.ok "other-c", []))
        (Model.mk "xx_XX-new" (ModelType.other "neural"))
        (Settings.mk "m" "t" "o" [] "" "" false) [[1, 2]]) :=
  ⟨(transcribe_at_most_one_backend
      ((fun _ _ a => (Except.ok "k", a)) : Backend Unit)
      (fun _ _ _ => (Except.ok "other-k", []))
      (fun _ _ a => (Except.ok "c", a))
      (fun _ _ a => (Except.ok "c", a))
      (Model.mk "xx_XX-new" (ModelType.other "neural"))
      (Settings.mk "m" "t" "o" [] "" "" false) [[1, 2]]).1 (by decide),
   (transcribe_at_most_one_backend
      ((fun _ _ a => (Except.ok "k", a)) : Backend Unit)
      (fun _ _ a => (Except.ok "k", a))
      (fun _ _ a => (Except.ok "c", a))
      (fun _ _ _ => (Except.ok "other-c", []))
      (Model.mk "xx_XX-new" (ModelType.other "neural"))
      (Settings.mk "m" "t" "o" [] "" "" false) [[1, 2]]).2 (by decide)⟩

/-- C4: when the selected backend fails, `transcribe` propagates that exact
error to the caller unchanged — the dispatcher performs no local recovery,
does not inspect, translate or wrap the backend's error, and substitutes no
text result for it. -/
theorem transcribe_propagates_backend_error {ε : Type}
    (tk tc : Backend ε) (m : Model) (s : Settings) (a : Audio)
    (e : PyError ε) (rest : Audio) :
    (m.type = ModelType.kaldi → tk m s a = (Except.error e, rest) →
      transcribe tk tc m s a = (Except.error e, rest)) ∧
    (m.type = ModelType.coquiStt → tc m s a = (Except.error e, rest) →
      transcribe tk tc m s a = (Except.error e, rest)) := by
  constructor
  · intro h he; simp [transcribe, h, he]
  · intro h he; simp [transcribe, h, he]

/-- Witness for C4: a failing kaldi backend's error, and a failing coqui
backend's error, each surface unchanged from `transcribe`. -/
theorem transcribe_propagates_backend_error_witness :
    (transcribe ((fun _ _ _ => (Except.error (PyError.backendError 7), [])) :
          Backend Nat)
        (fun _ _ a => (Except.ok "c", a))
        (Model.mk "en_US-kaldi" ModelType.kaldi)
        (Settings.mk "m" "t" "o" [] "" "" false) [[1]]
      = (Except.error (PyError.backendError 7), [])) ∧
    (transcribe ((fun _ _ a => (Except.ok "k", a)) : Backend Nat)
        (fun _ _ _ => (Except.error (PyError.backendError 9), []))
        (Model.mk "sk_SK-coqui" ModelType.coquiStt)
        (Settings.mk "m" "t" "o" [] "" "" false) [[1]]
      = (Except.error (PyError.backendError 9), [])) :=
  ⟨(transcribe_propagates_backend_error _ _ _ _ _ _ _).1 rfl rfl,
   (transcribe_propagates_backend_error _ _ _ _ _ _ _).2 rfl rfl⟩

/-- C5: when the model's type matches no backend, the failing call consumes no
chunk of the audio stream: the stream state after the call is exactly the one
passed in, and the error produced does not depend on the stream's contents. -/
theorem transcribe_unsupported_type_preserves_stream {ε : Type}
    (tk tc : Backend ε) (m : Model) (s : Settings) (a : Audio)
    (hk : m.type ≠ ModelType.kaldi) (hc : m.type ≠ ModelType.coquiStt) :
    (transcribe tk tc m s a).2 = a ∧
    (∀ a' : Audio, (transcribe tk tc m s a').1 = (transcribe tk tc m s a).1) := by
  constructor
  · simp [transcribe, hk, hc]
  · intro a'; simp [transcribe, hk, hc]

/-- Witness for C5: with an unregistered model type, a three-chunk stream is
returned with all three chunks intact, and the error equals the one produced
on an empty stream. -/
theorem transcribe_unsupported_type_preserves_stream_witness :
    (transcribe ((fun _ _ _ => (Except.ok "k", [])) : Backend Unit)
        (fun _ _ _ => (Except.ok "c", []))
        (Model.mk "xx_XX-new" (ModelType.other "neural"))
        (Settings.mk "m" "t" "o" [] "" "" false) [[1], [2], [3]]).2
      = [[1], [2], [3]] ∧
    (∀ a' : Audio,
      (transcribe ((fun _ _ _ => (Except.ok "k", [])) : Backend Unit)
        (fun _ _ _ => (Except.ok "c", []))
        (Model.mk "xx_XX-new" (ModelType.other "neural"))
        (Settings.mk "m" "t" "o" [] "" "" false) a').1
      = (transcribe ((fun _ _ _ => (Except.ok "k", [])) : Backend Unit)
        (fun _ _ _ => (Except.ok "c", []))
        (Model.mk "xx_XX-new" (ModelType.other "neural"))
        (Settings.mk "m" "t" "o" [] "" "" false) [[1], [2], [3]]).1) :=
  transcribe_unsupported_type_preserves_stream _ _ _ _ _
    (by decide) (by decide)

/-- C6: for a model of a supported type, an empty audio stream (zero chunks)
is forwarded to the selected backend rather than short-circuited: `transcribe`
on the empty stream equals exactly the backend's own result on empty input —
the dispatcher inspects no chunk and imposes no minimum-length requirement. -/
theorem transcribe_forwards_empty_stream {ε : Type}
    (tk tc : Backend ε) (m : Model) (s : Settings) :
    (m.type = ModelType.kaldi → transcribe tk tc m s [] = tk m s []) ∧
    (m.type = ModelType.coquiStt → transcribe tk tc m s [] = tc m s []) := by
  constructor
  · intro h; simp [transcribe, h]
  · intro h; simp [transcribe, h]

/-- Witness for C6: with backends that answer "empty-input" on a zero-chunk
stream, `transcribe` returns exactly that for both supported types. -/
theorem transcribe_forwards_empty_stream_witness :
    transcribe ((fun _ _ a => (Except.ok "kaldi-empty", a)) : Backend Unit)
        (fun _ _ a => (Except.ok "coqui-empty", a))
        (Model.mk "en_US-kaldi" ModelType.kaldi)
        (Settings.mk "m" "t" "o" [] "" "" false) []
      = (Except.ok "kaldi-empty", []) ∧
    transcribe ((fun _ _ a => (Except.ok "kaldi-empty", a)) : Backend Unit)
        (fun _ _ a => (Except.ok "coqui-empty", a))
        (Model.mk "sk_SK-coqui" ModelType.coquiStt)
        (Settings.mk "m" "t" "o" [] "" "" false) []
      = (Except.ok "coqui-empty", []) :=
  ⟨(transcribe_forwards_empty_stream _ _ _ _).1 rfl,
   (transcribe_forwards_empty_stream _ _ _ _).2 rfl⟩

/-- C7: looking up a model identifier absent from the registry fails with the
`AssertionError` of transcribe.py line 58 (the spec's `ModelNotFoundError`),
carrying the requested id — an error distinct from the dispatcher's
`TranscribingError` (the spec's `UnsupportedModelTypeError`). -/
theorem lookup_unknown_model_fails {ε : Type}
    (models : List Model) (modelId : String)
    (habsent : ∀ m ∈ models, m.id ≠ modelId) :
    resolveModel ε models modelId
      = Except.error (PyError.assertionError ("Unknown model id: " ++ modelId)) ∧
    (∀ msg msg' : String,
      (PyError.assertionError msg : PyError ε) ≠ PyError.transcribingError msg') := by
  refine ⟨?_, fun msg msg' h => by cases h⟩
  have hfind : lookupModel models modelId = none := by
    rw [lookupModel, List.find?_eq_none]
    intro m hm
    simpa using habsent m hm
  rw [resolveModel, hfind]

/-- Witness for C7: against a two-model registry, resolving the unknown id
"de_DE-missing" yields the assertion error with that id in its message. -/
theorem lookup_unknown_model_fails_witness :
    resolveModel Unit
        [Model.mk "en_US-kaldi" ModelType.kaldi,
         Model.mk "sk_SK-coqui" ModelType.coquiStt] "de_DE-missing"
      = Except.error (PyError.assertionError "Unknown model id: de_DE-missing") :=
  (lookup_unknown_model_fails
    [Model.mk "en_US-kaldi" ModelType.kaldi,
     Model.mk "sk_SK-coqui" ModelType.coquiStt] "de_DE-missing"
    (by decide)).1

/-- C8: the settings bundle is passed through to the selected backend
unchanged: a backend that reports any function of the settings it receives
reports exactly that function of the caller's settings value, so the settings
the backend observes are identical to the settings supplied by the caller. -/
theorem transcribe_settings_passed_unchanged {ε : Type}
    (g : Settings → String) (tk tc : Backend ε)
    (m : Model) (s : Settings) (a : Audio) :
    (m.type = ModelType.kaldi →
      transcribe (fun _ s' a' => (Except.ok (g s'), a')) tc m s a
        = (Except.ok (g s), a)) ∧
    (m.type = ModelType.coquiStt →
      transcribe tk (fun _ s' a' => (Except.ok (g s'), a')) m s a
        = (Except.ok (g s), a)) := by
  constructor
  · intro h; simp [transcribe, h]
  · intro h; simp [transcribe, h]

/-- Witness for C8: a backend reporting the models directory of the settings
it was handed reports the caller's models directory, for both backends. -/
theorem transcribe_settings_passed_unchanged_witness :
    transcribe (fun _ s' a' => (Except.ok s'.models_dir, a'))
        ((fun _ _ a => (Except.ok "c", a)) : Backend Unit)
        (Model.mk "en_US-kaldi" ModelType.kaldi)
        (Settings.mk "/data/models" "/t" "/o" [] "" "" false) [[1]]
      = (Except.ok "/data/models", [[1]]) ∧
    transcribe ((fun _ _ a => (Except.ok "k", a)) : Backend Unit)
        (fun _ s' a' => (Except.ok s'.models_dir, a'))
        (Model.mk "sk_SK-coqui" ModelType.coquiStt)
        (Settings.mk "/data/models" "/t" "/o" [] "" "" false) [[1]]
      = (Except.ok "/data/models", [[1]]) :=
  ⟨(transcribe_settings_passed_unchanged (fun s => s.models_dir)
      (fun _ _ a => (Except.ok "k", a)) (fun _ _ a => (Except.ok "c", a))
      (Model.mk "en_US-kaldi" ModelType.kaldi)
      (Settings.mk "/data/models" "/t" "/o" [] "" "" false) [[1]]).1 rfl,
   (transcribe_settings_passed_unchanged (fun s => s.models_dir)
      (fun _ _ a => (Except.ok "k", a)) (fun _ _ a => (Except.ok "c", a))
      (Model.mk "sk_SK-coqui" ModelType.coquiStt)
      (Settings.mk "/data/models" "/t" "/o" [] "" "" false) [[1]]).2 rfl⟩

/-- C10: if the selected backend returns the empty string as its text result,
`transcribe` returns the empty string to the caller: the dispatcher performs
no emptiness check on the returned text and raises no error for it. -/
theorem transcribe_returns_empty_text {ε : Type}
    (tk tc : Backend ε) (m : Model) (s : Settings) (a : Audio) (rest : Audio) :
    (m.type = ModelType.kaldi → tk m s a = (Except.ok "", rest) →
      transcribe tk tc m s a = (Except.ok "", rest)) ∧
    (m.type = ModelType.coquiStt → tc m s a = (Except.ok "", rest) →
      transcribe tk tc m s a = (Except.ok "", rest)) := by
  constructor
  · intro h he; simp [transcribe, h, he]
  · intro h he; simp [transcribe, h, he]

/-- Witness for C10: a backend returning the empty string makes `transcribe`
return the empty string, for both supported types. -/
theorem transcribe_returns_empty_text_witness :
    (transcribe ((fun _ _ _ => (Except.ok "", [])) : Backend Unit)
        (fun _ _ a => (Except.ok "c", a))
        (Model.mk "en_US-kaldi" ModelType.kaldi)
        (Settings.mk "m" "t" "o" [] "" "" false) [[1]]
      = (Except.ok "", [])) ∧
    (transcribe ((fun _ _ a => (Except.ok "k", a)) : Backend Unit)
        (fun _ _ _ => (Except.ok "", []))
        (Model.mk "sk_SK-coqui" ModelType.coquiStt)
        (Settings.mk "m" "t" "o" [] "" "" false) [[1]]
      = (Except.ok "", [])) :=
  ⟨(transcribe_returns_empty_text _ _ _ _ _ _).1 rfl rfl,
   (transcribe_returns_empty_text _ _ _ _ _ _).2 rfl rfl⟩

/-- Every chunk yielded by the audio stream generator is non-empty and holds
at most `chunkSize` frames. -/
theorem audioStream_mem_chunk {α : Type} (chunkSize : Nat) :
    ∀ (frames c : List α), c ∈ audioStream chunkSize frames →
      c ≠ [] ∧ c.length ≤ chunkSize
  | [], c, hc => by simp [audioStream] at hc
  | f :: rest, c, hc => by
    by_cases h0 : chunkSize = 0
    · simp [audioStream, h0] at hc
    · rw [audioStream] at hc
      rw [if_neg h0] at hc
      rcases List.mem_cons.mp hc with h | h
      · subst h
        refine ⟨List.cons_ne_nil _ _, ?_⟩
        simp [List.length_take]
        omega
      · exact audioStream_mem_chunk chunkSize (rest.drop (chunkSize - 1)) c h
termination_by frames _ _ => frames.length
decreasing_by simp [List.length_drop]; omega

/-- With a positive chunk size, the generator yields the file's frames in
full: it stops exactly at the first empty `readframes` result, i.e. at end of
file, dropping nothing. -/
theorem audioStream_flatten {α : Type} (chunkSize : Nat) (hk : 0 < chunkSize) :
    ∀ frames : List α, (audioStream chunkSize frames).flatten = frames
  | [] => by simp [audioStream]
  | f :: rest => by
    rw [audioStream]
    rw [if_neg (Nat.pos_iff_ne_zero.mp hk)]
    rw [List.flatten_cons]
    rw [audioStream_flatten chunkSize hk (rest.drop (chunkSize - 1))]
    simp [List.take_append_drop]
termination_by frames => frames.length
decreasing_by simp [List.length_drop]; omega

/-- C9: the file-backed audio stream generator (transcribe.py lines 73-79)
yields only non-empty chunks, each of at most chunk-size frames, and
terminates exactly when `readframes` returns an empty chunk: with a positive
chunk size the frames it yields are exactly the file's frames, so it stops
precisely at end of file, and no empty chunk is ever delivered to the
backend. -/
theorem audio_stream_wav_contract {α : Type} (chunkSize : Nat)
    (frames : List α) :
    (∀ c ∈ audioStream chunkSize frames, c ≠ [] ∧ c.length ≤ chunkSize) ∧
    (0 < chunkSize → (audioStream chunkSize frames).flatten = frames) :=
  ⟨fun c hc => audioStream_mem_chunk chunkSize frames c hc,
   fun hk => audioStream_flatten chunkSize hk frames⟩

/-- Witness for C9: a three-frame file read with chunk size 2 yields the
chunks [[0, 1], [2]]; the final chunk [2] is non-empty and within bound, and
the chunks flatten back to the file's frames. -/
theorem audio_stream_wav_contract_witness :
    (([2] : List Nat) ≠ [] ∧ ([2] : List Nat).length ≤ 2) ∧
    (audioStream 2 ([0, 1, 2] : List Nat)).flatten = [0, 1, 2] :=
  ⟨(audio_stream_wav_contract 2 [0, 1, 2]).1 [2] (by simp [audioStream]),
   (audio_stream_wav_contract 2 [0, 1, 2]).2 (by decide)⟩

end SpeechToPhrase
